import Mathlib

/-!
Verification of the passport-kyc-service issuance pipeline.

This file gives a shallow embedding, in Lean 4, of the Go code under
internal/service (the CreateIdentity HTTP handler, its validation helpers,
and the issuer client), together with theorems settling the specification
claims about it.

Conventions of the embedding:
 - machine bytes are Nat values (< 256 by construction of the decoders);
 - Go big.Int values are Lean Int; big.Int.Bytes() is the minimal
   big-endian byte list of the absolute value (natBytes of natAbs);
 - external collaborators (SHA hashes, ASN.1 parsing, x509, the Groth16
   verifier, Poseidon, the vault and the issuer RPC) are oracle functions
   carried in an environment record, exactly at the call granularity the
   Go code uses them; the repository's own control flow, comparisons and
   data plumbing are translated literally;
 - fallible Go calls become Option/Except; a Go run-time panic (unchecked
   type assertion, out-of-range slice index) is a distinguished outcome,
   never an ordinary error;
 - the database is an in-memory list of claim rows and the transaction is
   sequential execution with rollback-on-error; issuer RPC calls are
   recorded in an ordered log since they are not rolled back;
 - time.Now() is an oracle date in the environment; time.Date is modeled
   as the record of its (year, month, day) arguments (no claim depends on
   Go date normalization);
 - Go map iteration order in signatureAlgorithm is unspecified; the
   embedding fixes the order SHA1 before SHA256 and RSA before ECDSA,
   which is observationally equal on every unambiguous input and on all
   rejection cases.
-/

/-! ## Byte-level helpers -/

/-- Value of a big-endian byte list, as big.Int.SetBytes reads it. -/
def bytesToNat : List Nat → Nat
  | [] => 0
  | b :: t => b * 256 ^ t.length + bytesToNat t

/-- Fuelled big-endian byte expansion (structural recursion so that the
kernel evaluates it; any fuel of at least n is adequate). -/
def natBytesF : Nat → Nat → List Nat
  | 0, _ => []
  | f + 1, n => if n = 0 then [] else natBytesF f (n / 256) ++ [n % 256]

/-- Minimal big-endian byte list of a natural number, as big.Int.Bytes()
produces it (the empty list for zero). -/
def natBytes (n : Nat) : List Nat := natBytesF n n

/-- big.Int.Bytes(): the bytes of the absolute value. -/
def intBytes (i : Int) : List Nat := natBytes i.natAbs

/-! ## Character and string helpers (ASCII, as used by the Go code) -/

/-- ASCII uppercasing of one character (strings.ToUpper on the ASCII
subset the algorithm tokens use). -/
def charUpperA (c : Char) : Char :=
  if 'a' ≤ c ∧ c ≤ 'z' then Char.ofNat (c.toNat - 32) else c

def toUpperL (l : List Char) : List Char := l.map charUpperA

/-- Does the text start with the pattern? (first argument: pattern). -/
def leadsWith : List Char → List Char → Bool
  | [], _ => true
  | _ :: _, [] => false
  | p :: ps, t :: ts => p == t && leadsWith ps ts

/-- strings.Contains on character lists (first argument: pattern). -/
def hasSubL (pat : List Char) : List Char → Bool
  | [] => leadsWith pat []
  | c :: ts => leadsWith pat (c :: ts) || hasSubL pat ts

/-- strings.Contains(strings.ToUpper(s), tok) for an ASCII token. -/
def containsUpper (s : String) (tok : String) : Bool :=
  hasSubL tok.data (toUpperL s.data)

/-! ## Number parsing (encoding/hex, strconv, big.Int.SetString) -/

def hexDigitVal (c : Char) : Option Nat :=
  if '0' ≤ c ∧ c ≤ '9' then some (c.toNat - '0'.toNat)
  else if 'a' ≤ c ∧ c ≤ 'f' then some (c.toNat - 'a'.toNat + 10)
  else if 'A' ≤ c ∧ c ≤ 'F' then some (c.toNat - 'A'.toNat + 10)
  else none

def hexDecodeL : List Char → Option (List Nat)
  | [] => some []
  | [_] => none
  | a :: b :: rest =>
    match hexDigitVal a, hexDigitVal b, hexDecodeL rest with
    | some x, some y, some r => some ((16 * x + y) :: r)
    | _, _, _ => none

/-- hex.DecodeString: even number of hex digits, one byte per pair. -/
def hexDecode (s : String) : Option (List Nat) := hexDecodeL s.data

/-- Digit value in the given base (supports bases 10 and 16). -/
def digitValAt (base : Nat) (c : Char) : Option Nat :=
  match hexDigitVal c with
  | some v => if v < base then some v else none
  | none => none

def parseDigitsAux (base : Nat) (acc : Nat) : List Char → Option Nat
  | [] => some acc
  | c :: cs =>
    match digitValAt base c with
    | some v => parseDigitsAux base (acc * base + v) cs
    | none => none

/-- One or more digits of the base, no other characters. -/
def parseDigitsGo (base : Nat) : List Char → Option Nat
  | [] => none
  | c :: cs => parseDigitsAux base 0 (c :: cs)

/-- big.Int.SetString with an explicit base: optional sign, then a
non-empty run of digits of the base (no underscores for a fixed base). -/
def parseBigIntGo (base : Nat) (l : List Char) : Option Int :=
  match l with
  | '-' :: rest => (parseDigitsGo base rest).map (fun n => -(n : Int))
  | '+' :: rest => (parseDigitsGo base rest).map (fun n => (n : Int))
  | _ => (parseDigitsGo base l).map (fun n => (n : Int))

def int64MaxI : Int := 9223372036854775807
def int64MinI : Int := -9223372036854775808

/-- strconv.Atoi on a 64-bit platform: base-10 ParseInt with the int64
range check (out-of-range input is an error). -/
def atoi (s : String) : Option Int :=
  match parseBigIntGo 10 s.data with
  | none => none
  | some v => if v < int64MinI ∨ int64MaxI < v then none else some v

/-! ## Domain data (internal/data, resources, requests) -/

/-- A calendar date triple; used both for the time.Now() oracle and as
the argument record of time.Date in getExpirationTimeFromPubSignals. -/
structure GoDate where
  year : Int
  month : Int
  day : Int
deriving DecidableEq

/-- resources.DigestAttribute: the digest SET, one byte string each. -/
structure DigestAttribute where
  digest : List (List Nat)
deriving DecidableEq

/-- resources.EncapsulatedData, reduced to the two octet strings the
handler reads: El1 (DG1) and El2 (DG2). -/
structure EncapsulatedData where
  el1 : List Nat
  el2 : List Nat
deriving DecidableEq

/-- The kind and handle of a certificate public key, as the Go type
switch distinguishes it. -/
inductive PublicKey
  | rsa (k : Nat)
  | ecdsa (k : Nat)
  | other (k : Nat)
deriving DecidableEq

structure Cert where
  publicKey : PublicKey
deriving DecidableEq

structure ZKProof where
  pubSignals : List String
  proofData : Nat
deriving DecidableEq

/-- requests.CreateIdentityRequestData.DocumentSOD. -/
structure DocumentSOD where
  signedAttributes : String
  algorithm : String
  signature : String
  pemFile : String
  encapsulatedContent : String
deriving DecidableEq

/-- requests.CreateIdentityRequestData (the DID, user id and address are
kept in their textual form). -/
structure RequestData where
  id : String
  zkProof : ZKProof
  userID : String
  userAddress : String
  documentSOD : DocumentSOD
deriving DecidableEq

/-- data.Claim: one row of the claims table. -/
structure Claim where
  id : String
  userDID : String
  userID : String
  userAddress : String
  issuerDID : String
  documentHash : String
deriving DecidableEq

/-- issuer.CredentialStatus plus the revoked flag of
issuer.GetCredentialResponse (the only fields the handler reads). -/
structure Credential where
  revoked : Bool
  revocationNonce : Int
deriving DecidableEq

/-- issuer.CredentialSubject. -/
structure CredentialSubject where
  id : String
  isAdult : Bool
  issuingAuthority : Int
  documentNullifier : Int
  credentialHash : Int
  userID : String
  features : String
  userAddress : String
  metadata : String
deriving DecidableEq

/-- issuer.CredentialRequest (the expiration field is the omitempty JSON
field; the Go constructor never sets it). -/
structure CredentialRequest where
  credentialSchema : String
  typ : String
  credentialSubject : CredentialSubject
  expiration : Option GoDate
  mtProof : Bool
  signatureProof : Bool
deriving DecidableEq

deriving instance DecidableEq for Except

/-- One outbound issuer RPC, in call order. -/
inductive IssuerCall
  | getCred (id : String)
  | revoke (nonce : Int)
  | create (cr : CredentialRequest)
deriving DecidableEq

/-! ## Oracle environments for the external collaborators -/

/-- External primitives the handler calls, at Go call granularity. -/
structure Env where
  sha1 : List Nat → List Nat
  sha256 : List Nat → List Nat
  asn1ParseSet : List Nat → Option (List (List Nat))
  asn1ParseDigestAttr : List Nat → Option DigestAttribute
  asn1ParseEncapsulatedData : List Nat → Option EncapsulatedData
  parseCert : String → Option Cert
  rsaVerify : Nat → List Nat → List Nat → Bool
  ecdsaVerify : Nat → List Nat → List Nat → Bool
  groth16Verify : Nat → ZKProof → Bool
  x509Verify : Cert → String → Option Nat
  poseidonHash : List Int → Option Int
  poseidonHashBytes : List Nat → Option Nat
  blinder : Option Int
  uuidParse : String → Option String
  now : GoDate

/-- config.VerifierConfig: verification keys by hash-family name, the
master-certificate PEM blob and the minimum age. -/
structure VerifierConfig where
  verificationKeys : String → Nat
  masterCerts : String
  allowedAge : Int

/-- The issuer client state plus its three RPC endpoints. -/
structure IssuerEnv where
  did : String
  credentialSchema : String
  claimType : String
  getCredential : String → Option Credential
  revokeClaim : Int → Bool
  postClaim : CredentialRequest → Option String

/-! ## Embedded handler helpers (create_identity.go) -/

def SHA1 : String := "sha1"
def SHA256 : String := "sha256"
def SHA256withRSA : String := "SHA256withRSA"
def SHA1withECDSA : String := "SHA1withECDSA"
def SHA256withECDSA : String := "SHA256withECDSA"

/-- signatureAlgorithm: uppercase substring dispatch over the closed
algorithm table, with the PSS early rejection.  Go iterates its map in
unspecified order; the embedding fixes SHA1 before SHA256 and RSA before
ECDSA (all rejection cases and all unambiguous inputs agree). -/
def signatureAlgorithm (passedAlgorithm : String) : String :=
  let up := toUpperL passedAlgorithm.data
  if hasSubL "PSS".data up then "" else
  if hasSubL "SHA1".data up && hasSubL "ECDSA".data up then SHA1withECDSA
  else if hasSubL "SHA256".data up && hasSubL "RSA".data up then SHA256withRSA
  else if hasSubL "SHA256".data up && hasSubL "ECDSA".data up then SHA256withECDSA
  else ""

/-- validateSignedAttributes: parse the attribute SET, take the last
attribute as the digest attribute, hash the encapsulated content with
the algorithm family hash, and compare with the first digest value. -/
def validateSignedAttributes (env : Env) (signedAttributes encapsulatedContent : List Nat)
    (algorithm : String) : Except String Unit :=
  match env.asn1ParseSet signedAttributes with
  | none => .error "failed to unmarshal ASN1 with params"
  | some signedAttributesASN1 =>
    if signedAttributesASN1.length == 0 then .error "signed attributes amount is 0"
    else
      match env.asn1ParseDigestAttr (signedAttributesASN1.getLastD []) with
      | none => .error "failed to unmarshal ASN1"
      | some digestAttr =>
        if algorithm = SHA1withECDSA then
          if digestAttr.digest.length == 0 then .error "signed attributes digest values amount is 0"
          else if digestAttr.digest.headD [] == env.sha1 encapsulatedContent then .ok ()
          else .error "digest signed attribute is not equal to encapsulated content hash"
        else if algorithm = SHA256withRSA || algorithm = SHA256withECDSA then
          if digestAttr.digest.length == 0 then .error "signed attributes digest values amount is 0"
          else if digestAttr.digest.headD [] == env.sha256 encapsulatedContent then .ok ()
          else .error "digest signed attribute is not equal to encapsulated content hash"
        else .error "is not supported algorithm"

/-- Outcome of verifySignature: ok, an ordinary error, or a run-time
panic from the unchecked public-key type assertion. -/
inductive SigOutcome
  | ok
  | err
  | panicAssert
deriving DecidableEq

/-- verifySignature: hex-decode the signature, then dispatch on the
normalized algorithm; the Go code casts cert.PublicKey with an unchecked
type assertion, which panics when the key kind mismatches. -/
def verifySignature (env : Env) (req : RequestData) (cert : Cert)
    (signedAttributes : List Nat) (algo : String) : SigOutcome :=
  match hexDecode req.documentSOD.signature with
  | none => .err
  | some signature =>
    if algo = SHA256withRSA then
      match cert.publicKey with
      | .rsa k => if env.rsaVerify k (env.sha256 signedAttributes) signature then .ok else .err
      | _ => .panicAssert
    else if algo = SHA1withECDSA then
      match cert.publicKey with
      | .ecdsa k => if env.ecdsaVerify k (env.sha1 signedAttributes) signature then .ok else .err
      | _ => .panicAssert
    else if algo = SHA256withECDSA then
      match cert.publicKey with
      | .ecdsa k => if env.ecdsaVerify k (env.sha256 signedAttributes) signature then .ok else .err
      | _ => .panicAssert
    else .err

/-- signedAttributesPoseidonHash: hex-decode the signed attributes again,
append the big-endian blinder bytes, and Poseidon-hash the byte buffer. -/
def signedAttributesPoseidonHash (env : Env) (signedAttributes : String)
    (blinder : Int) : Option Nat :=
  match hexDecode signedAttributes with
  | none => none
  | some signedAttributesBytes =>
    env.poseidonHashBytes (signedAttributesBytes ++ intBytes blinder)

/-- validateCert: build the root pool from the master PEM blob and run
x509 chain verification; an error or an empty chain set is fatal. -/
def validateCert (env : Env) (cert : Cert) (masterCertsPem : String) : Except String Unit :=
  match env.x509Verify cert masterCertsPem with
  | none => .error "invalid certificate"
  | some foundCerts =>
    if foundCerts == 0 then .error "invalid certificate: no valid certificate found" else .ok ()

/-- stringToBigInt: base 10, or base 16 after stripping a 0x prefix. -/
def stringToBigInt (s : String) : Option Int :=
  if leadsWith "0x".data s.data then parseBigIntGo 16 (s.data.drop 2)
  else parseBigIntGo 10 s.data

def stringsToArrayBigInt : List String → Option (List Int)
  | [] => some []
  | s :: rest =>
    match stringToBigInt s with
    | none => none
    | some v =>
      match stringsToArrayBigInt rest with
      | none => none
      | some r => some (v :: r)

/-- Go slice indexing as used on pub_signals: some value in range, none
(a run-time panic at the call sites) out of range. -/
def goIndex (l : List String) (i : Nat) : Option String := l.get? i

/-- A failed pub-signal check: either an ordinary validation error or a
run-time panic from an out-of-range index into the signal array. -/
inductive PubErr
  | panicOOB
  | failure (msg : String)
deriving DecidableEq

/-- validatePubSignalsDG1Hash: the DG1 bytes must equal the concatenated
big-endian bytes of signals 0 and 1 (both indexed before parsing). -/
def validatePubSignalsDG1Hash (dg1 : List Nat) (pubSignals : List String) : Except PubErr Unit :=
  match goIndex pubSignals 0, goIndex pubSignals 1 with
  | some s0, some s1 =>
    match stringsToArrayBigInt [s0, s1] with
    | none => .error (.failure "failed to convert strings to big integers")
    | some ints =>
      if dg1 == intBytes (ints.getD 0 0) ++ intBytes (ints.getD 1 0) then .ok ()
      else .error (.failure "encapsulated data and proof pub signals hashes are different")
  | _, _ => .error .panicOOB

/-- validatePubSignalsCurrentDate: signals 3, 4, 5 must equal the current
UTC (year-2000, month, day), each index evaluated in source order. -/
def validatePubSignalsCurrentDate (now : GoDate) (pubSignals : List String) : Except PubErr Unit :=
  match goIndex pubSignals 3 with
  | none => .error .panicOOB
  | some s3 =>
    match atoi s3 with
    | none => .error (.failure "invalid year")
    | some year =>
      match goIndex pubSignals 4 with
      | none => .error .panicOOB
      | some s4 =>
        match atoi s4 with
        | none => .error (.failure "invalid month")
        | some month =>
          match goIndex pubSignals 5 with
          | none => .error .panicOOB
          | some s5 =>
            match atoi s5 with
            | none => .error (.failure "invalid day")
            | some day =>
              if now.year ≠ 2000 + year then .error (.failure "invalid year value")
              else if now.month ≠ month then .error (.failure "invalid month value")
              else if now.day ≠ day then .error (.failure "invalid day value")
              else .ok ()

/-- validatePubSignalsAge: signal 9 parsed as an int must reach the
configured minimum age. -/
def validatePubSignalsAge (cfg : VerifierConfig) (agePubSignal : String) : Except PubErr Unit :=
  match atoi agePubSignal with
  | none => .error (.failure "failed to convert pub input to int")
  | some age => if age < cfg.allowedAge then .error (.failure "invalid age") else .ok ()

/-- validatePubSignals: DG1 binding, then current date, then the age
check whose argument pubSignals[9] is indexed at the call site. -/
def validatePubSignals (cfg : VerifierConfig) (now : GoDate) (dg1 : List Nat)
    (pubSignals : List String) : Except PubErr Unit :=
  match validatePubSignalsDG1Hash dg1 pubSignals with
  | .error e => .error e
  | .ok _ =>
    match validatePubSignalsCurrentDate now pubSignals with
    | .error e => .error e
    | .ok _ =>
      match goIndex pubSignals 9 with
      | none => .error .panicOOB
      | some s9 => validatePubSignalsAge cfg s9

/-- getExpirationTimeFromPubSignals: signals 6, 7, 8 as (year-2000,
month, day); the result records the arguments handed to time.Date. -/
def getExpirationTimeFromPubSignals (pubSignals : List String) : Except PubErr GoDate :=
  match goIndex pubSignals 6 with
  | none => .error .panicOOB
  | some s6 =>
    match atoi s6 with
    | none => .error (.failure "invalid year")
    | some year =>
      match goIndex pubSignals 7 with
      | none => .error .panicOOB
      | some s7 =>
        match atoi s7 with
        | none => .error (.failure "invalid month")
        | some month =>
          match goIndex pubSignals 8 with
          | none => .error .panicOOB
          | some s8 =>
            match atoi s8 with
            | none => .error (.failure "invalid day")
            | some day => .ok { year := 2000 + year, month := month, day := day }

/-! ## Embedded issuer client (issuer/main.go) -/

/-- The nullifier pre-image built by IssueVotingClaim: DG2 split into two
halves when it has at least 32 bytes, one limb otherwise, then the
blinder appended. -/
def nullifierHashInput (dg2 : List Nat) (blinder : Int) : List Int :=
  (if 32 ≤ dg2.length then
    [(bytesToNat (dg2.take (dg2.length / 2)) : Int),
     (bytesToNat (dg2.drop (dg2.length / 2)) : Int)]
  else
    [(bytesToNat dg2 : Int)]) ++ [blinder]

/-- The CredentialRequest literal that IssueVotingClaim posts, with the
computed nullifier and credential hashes plugged in (the expiration
field is the omitempty JSON field the Go constructor never sets). -/
def ivcRequest (iss : IssuerEnv) (id : String) (issuingAuthority : Int) (isAdult : Bool)
    (userAddress userId documentHash : String) (nullifierHash credentialHash : Int) :
    CredentialRequest :=
  { credentialSchema := iss.credentialSchema
    typ := iss.claimType
    credentialSubject :=
      { id := id
        issuingAuthority := issuingAuthority
        isAdult := isAdult
        documentNullifier := nullifierHash
        credentialHash := credentialHash
        userID := userId
        userAddress := userAddress
        metadata := "_"
        features := documentHash }
    expiration := none
    mtProof := true
    signatureProof := true }

/-- IssueVotingClaim: Poseidon the nullifier input, Poseidon the triple
[1, issuing authority, nullifier], build the CredentialRequest (the
expiration parameter is accepted but never copied into the request, as
in the source) and post it; the snd component is the RPC log. -/
def issueVotingClaim (env : Env) (iss : IssuerEnv) (id : String) (issuingAuthority : Int)
    (isAdult : Bool) (expiration : GoDate) (dg2 : List Nat) (blinder : Int)
    (userAddress userId : String) (documentHash : String) :
    Except String String × List IssuerCall :=
  match env.poseidonHash (nullifierHashInput dg2 blinder) with
  | none => (.error "failed to hash bytes", [])
  | some nullifierHash =>
    match env.poseidonHash [1, issuingAuthority, nullifierHash] with
    | none => (.error "failed to hash bytes", [])
    | some credentialHash =>
      let credentialRequest : CredentialRequest :=
        ivcRequest iss id issuingAuthority isAdult userAddress userId documentHash
          nullifierHash credentialHash
      match iss.postClaim credentialRequest with
      | none => (.error "failed to send post request", [.create credentialRequest])
      | some claimId => (.ok claimId, [.create credentialRequest])

/-! ## Embedded issuance transaction (CreateIdentity lines 180-227) -/

/-- DeleteByID on the in-memory claims table. -/
def deleteByID (db : List Claim) (claimID : String) : List Claim :=
  db.filter (fun c => !(c.id == claimID))

/-- revokeOutdatedClaim: fetch the credential, revoke through the issuer
RPC when it is not already revoked, then delete the row. -/
def revokeOutdatedClaim (iss : IssuerEnv) (db : List Claim) (claimID : String) :
    Except String (List Claim) × List IssuerCall :=
  match iss.getCredential claimID with
  | none => (.error "failed to get credential", [.getCred claimID])
  | some cred =>
    if !cred.revoked then
      if iss.revokeClaim cred.revocationNonce then
        (.ok (deleteByID db claimID), [.getCred claimID, .revoke cred.revocationNonce])
      else
        (.error "failed to revoke claim", [.getCred claimID, .revoke cred.revocationNonce])
    else (.ok (deleteByID db claimID), [.getCred claimID])

/-- The revocation loop of the transaction body: for each selected prior
claim, record the caller user id and revoke the claim; threading the
database, the response user-id field and the RPC log. -/
def revokeLoop (iss : IssuerEnv) (reqUserId : String) :
    List Claim → List Claim → Option String →
    Except String (List Claim) × Option String × List IssuerCall
  | [], db, uid => (.ok db, uid, [])
  | c :: rest, db, _uid =>
    match revokeOutdatedClaim iss db c.id with
    | (.error e, log) => (.error e, some reqUserId, log)
    | (.ok db', log) =>
      match revokeLoop iss reqUserId rest db' (some reqUserId) with
      | (r, uidF, log') => (r, uidF, log ++ log')

/-- The transaction body: select the prior claims for the fingerprint,
revoke and delete each, issue the new claim, parse the returned id and
insert the new row.  On error the database rolls back (the caller keeps
the original list) while the RPC log is kept. -/
def runTx (env : Env) (iss : IssuerEnv) (req : RequestData) (issuingAuthority : Int)
    (expiration : GoDate) (dg2 : List Nat) (blinder : Int) (fingerprint : Nat)
    (db : List Claim) :
    Except String (List Claim × String × Option String) × List IssuerCall :=
  let hashStr := Nat.repr fingerprint
  let claimsToRevoke := db.filter (fun c => c.documentHash == hashStr)
  match revokeLoop iss req.userID claimsToRevoke db none with
  | (.error e, _, log) => (.error e, log)
  | (.ok db1, uidOpt, log) =>
    match issueVotingClaim env iss req.id issuingAuthority true expiration dg2 blinder
        req.userAddress req.userID hashStr with
    | (.error e, log2) => (.error e, log ++ log2)
    | (.ok claimIdStr, log2) =>
      match env.uuidParse claimIdStr with
      | none => (.error "failed to parse uuid", log ++ log2)
      | some pid =>
        (.ok (db1 ++ [{ id := pid, userDID := req.id, userID := req.userID,
                        userAddress := req.userAddress, issuerDID := iss.did,
                        documentHash := hashStr }], claimIdStr, uidOpt),
         log ++ log2)

/-! ## The handler pipeline (CreateIdentity) -/

/-- The pipeline stages in the order the handler body runs them. -/
inductive Stage
  | algSelect
  | hexSA
  | hexEC
  | validateSA
  | certParse
  | sigVerify
  | groth16
  | encapDecode
  | pubSignals
  | certValidate
  | expiration
  | authParse
  | vaultBlinder
  | fingerprintHash
  | txRun
deriving DecidableEq

/-- Every early exit point of the handler before the transaction. -/
inductive FailPoint
  | algInvalid
  | hexSAFail
  | hexECFail
  | saValidationFail
  | certParseFail
  | sigVerifyFail
  | sigPanic
  | groth16Fail
  | algUnknownAtZK
  | encapFail
  | pubSignalsFail
  | pubSignalsPanic
  | certValidateFail
  | expirationFail
  | expirationPanic
  | authAccessPanic
  | authAtoiFail
  | vaultFail
  | fingerprintFail
deriving DecidableEq

/-- The rendered HTTP response. -/
inductive Response
  | badRequest
  | internalError
  | ok (claimId : String) (issuerDid : String) (userId : Option String)
  | panicked
deriving DecidableEq

/-- The HTTP status of a rendered response (none for a panic, which
never renders). -/
def httpStatus : Response → Option Nat
  | .badRequest => some 400
  | .internalError => some 500
  | .ok _ _ _ => some 200
  | .panicked => none

/-- The response the handler renders at each early exit, exactly as the
source renders it (problems.BadRequest versus problems.InternalError). -/
def failResponse : FailPoint → Response
  | .algInvalid => .badRequest
  | .hexSAFail => .badRequest
  | .hexECFail => .badRequest
  | .saValidationFail => .internalError
  | .certParseFail => .internalError
  | .sigVerifyFail => .internalError
  | .sigPanic => .panicked
  | .groth16Fail => .badRequest
  | .algUnknownAtZK => .badRequest
  | .encapFail => .internalError
  | .pubSignalsFail => .badRequest
  | .pubSignalsPanic => .panicked
  | .certValidateFail => .badRequest
  | .expirationFail => .badRequest
  | .expirationPanic => .panicked
  | .authAccessPanic => .panicked
  | .authAtoiFail => .internalError
  | .vaultFail => .internalError
  | .fingerprintFail => .internalError

/-- The stages that ran, in order, when the handler stopped at the given
exit point (trace is a function of the exit point because the stage
order is static in the source). -/
def traceOfFail : FailPoint → List Stage
  | .algInvalid => [.algSelect]
  | .hexSAFail => [.algSelect, .hexSA]
  | .hexECFail => [.algSelect, .hexSA, .hexEC]
  | .saValidationFail => [.algSelect, .hexSA, .hexEC, .validateSA]
  | .certParseFail => [.algSelect, .hexSA, .hexEC, .validateSA, .certParse]
  | .sigVerifyFail => [.algSelect, .hexSA, .hexEC, .validateSA, .certParse, .sigVerify]
  | .sigPanic => [.algSelect, .hexSA, .hexEC, .validateSA, .certParse, .sigVerify]
  | .groth16Fail => [.algSelect, .hexSA, .hexEC, .validateSA, .certParse, .sigVerify, .groth16]
  | .algUnknownAtZK => [.algSelect, .hexSA, .hexEC, .validateSA, .certParse, .sigVerify, .groth16]
  | .encapFail => [.algSelect, .hexSA, .hexEC, .validateSA, .certParse, .sigVerify, .groth16,
      .encapDecode]
  | .pubSignalsFail => [.algSelect, .hexSA, .hexEC, .validateSA, .certParse, .sigVerify, .groth16,
      .encapDecode, .pubSignals]
  | .pubSignalsPanic => [.algSelect, .hexSA, .hexEC, .validateSA, .certParse, .sigVerify, .groth16,
      .encapDecode, .pubSignals]
  | .certValidateFail => [.algSelect, .hexSA, .hexEC, .validateSA, .certParse, .sigVerify, .groth16,
      .encapDecode, .pubSignals, .certValidate]
  | .expirationFail => [.algSelect, .hexSA, .hexEC, .validateSA, .certParse, .sigVerify, .groth16,
      .encapDecode, .pubSignals, .certValidate, .expiration]
  | .expirationPanic => [.algSelect, .hexSA, .hexEC, .validateSA, .certParse, .sigVerify, .groth16,
      .encapDecode, .pubSignals, .certValidate, .expiration]
  | .authAccessPanic => [.algSelect, .hexSA, .hexEC, .validateSA, .certParse, .sigVerify, .groth16,
      .encapDecode, .pubSignals, .certValidate, .expiration, .authParse]
  | .authAtoiFail => [.algSelect, .hexSA, .hexEC, .validateSA, .certParse, .sigVerify, .groth16,
      .encapDecode, .pubSignals, .certValidate, .expiration, .authParse]
  | .vaultFail => [.algSelect, .hexSA, .hexEC, .validateSA, .certParse, .sigVerify, .groth16,
      .encapDecode, .pubSignals, .certValidate, .expiration, .authParse, .vaultBlinder]
  | .fingerprintFail => [.algSelect, .hexSA, .hexEC, .validateSA, .certParse, .sigVerify, .groth16,
      .encapDecode, .pubSignals, .certValidate, .expiration, .authParse, .vaultBlinder,
      .fingerprintHash]

/-- The full stage list of a run that reaches the transaction. -/
def fullTrace : List Stage :=
  [.algSelect, .hexSA, .hexEC, .validateSA, .certParse, .sigVerify, .groth16,
   .encapDecode, .pubSignals, .certValidate, .expiration, .authParse, .vaultBlinder,
   .fingerprintHash, .txRun]

/-- Everything the pipeline has computed when it reaches the vault and
transaction part of the handler. -/
structure PreData where
  algo : String
  saBytes : List Nat
  ecBytes : List Nat
  cert : Cert
  ed : EncapsulatedData
  expiration : GoDate
  issuingAuthority : Int
  blinder : Int
  fingerprint : Nat
deriving DecidableEq

/-- The Groth16 dispatch switch of the handler: the SHA1 key for
SHA1withECDSA, the SHA256 key for the two SHA256 algorithms, reject any
other tag. -/
def zkGate (env : Env) (cfg : VerifierConfig) (zkProof : ZKProof) (algo : String) :
    Except FailPoint Unit :=
  if algo = SHA1withECDSA then
    if env.groth16Verify (cfg.verificationKeys SHA1) zkProof then .ok ()
    else .error .groth16Fail
  else if algo = SHA256withRSA ∨ algo = SHA256withECDSA then
    if env.groth16Verify (cfg.verificationKeys SHA256) zkProof then .ok ()
    else .error .groth16Fail
  else .error .algUnknownAtZK

/-- The pipeline prefix of CreateIdentity, from algorithm selection up to
the document fingerprint, in source statement order. -/
def preTx (env : Env) (cfg : VerifierConfig) (req : RequestData) : Except FailPoint PreData :=
  let algo := signatureAlgorithm req.documentSOD.algorithm
  if algo = "" then .error .algInvalid else
  match hexDecode req.documentSOD.signedAttributes with
  | none => .error .hexSAFail
  | some saBytes =>
  match hexDecode req.documentSOD.encapsulatedContent with
  | none => .error .hexECFail
  | some ecBytes =>
  match validateSignedAttributes env saBytes ecBytes algo with
  | .error _ => .error .saValidationFail
  | .ok _ =>
  match env.parseCert req.documentSOD.pemFile with
  | none => .error .certParseFail
  | some cert =>
  match verifySignature env req cert saBytes algo with
  | .err => .error .sigVerifyFail
  | .panicAssert => .error .sigPanic
  | .ok =>
  match zkGate env cfg req.zkProof algo with
  | .error fp => .error fp
  | .ok _ =>
  match env.asn1ParseEncapsulatedData ecBytes with
  | none => .error .encapFail
  | some ed =>
  match validatePubSignals cfg env.now ed.el1 req.zkProof.pubSignals with
  | .error .panicOOB => .error .pubSignalsPanic
  | .error (.failure _) => .error .pubSignalsFail
  | .ok _ =>
  match validateCert env cert cfg.masterCerts with
  | .error _ => .error .certValidateFail
  | .ok _ =>
  match getExpirationTimeFromPubSignals req.zkProof.pubSignals with
  | .error .panicOOB => .error .expirationPanic
  | .error (.failure _) => .error .expirationFail
  | .ok expiration =>
  match goIndex req.zkProof.pubSignals 2 with
  | none => .error .authAccessPanic
  | some s2 =>
  match atoi s2 with
  | none => .error .authAtoiFail
  | some issuingAuthority =>
  match env.blinder with
  | none => .error .vaultFail
  | some blinder =>
  match signedAttributesPoseidonHash env req.documentSOD.signedAttributes blinder with
  | none => .error .fingerprintFail
  | some fingerprint =>
    .ok { algo := algo, saBytes := saBytes, ecBytes := ecBytes, cert := cert, ed := ed,
          expiration := expiration, issuingAuthority := issuingAuthority,
          blinder := blinder, fingerprint := fingerprint }

/-- The result of one handler run: the rendered response, the final
database, the ordered issuer RPC log and the executed stage trace. -/
structure HandlerResult where
  response : Response
  db : List Claim
  issuerCalls : List IssuerCall
  trace : List Stage
deriving DecidableEq

/-- CreateIdentity: the full handler.  A failing transaction rolls the
database back to its input state but keeps the issuer RPC log. -/
def CreateIdentity (env : Env) (cfg : VerifierConfig) (iss : IssuerEnv)
    (req : RequestData) (db : List Claim) : HandlerResult :=
  match preTx env cfg req with
  | .error fp =>
    { response := failResponse fp, db := db, issuerCalls := [], trace := traceOfFail fp }
  | .ok pd =>
    match runTx env iss req pd.issuingAuthority pd.expiration pd.ed.el2 pd.blinder
        pd.fingerprint db with
    | (.error _, log) =>
      { response := .internalError, db := db, issuerCalls := log, trace := fullTrace }
    | (.ok (db', claimIdStr, uidOpt), log) =>
      { response := .ok claimIdStr iss.did uidOpt, db := db', issuerCalls := log,
        trace := fullTrace }

/-! ## Specification-side definition (for the nullifier refinement) -/

/-- The document-nullifier pre-image as the specification words it:
split DG2 by half (first half, second half) if its length is at least 32
bytes, otherwise use a single limb, then append the blinder. -/
def specNullifierInput (dg2 : List Nat) (blinder : Int) : List Int :=
  (if 32 ≤ dg2.length then
    [(bytesToNat (dg2.take (dg2.length / 2)) : Int),
     (bytesToNat (dg2.drop (dg2.length / 2)) : Int)]
  else
    [(bytesToNat dg2 : Int)]) ++ [blinder]

/-! ## Concrete instances used by witnesses and counterexamples -/

/-- A benign oracle environment on which every pipeline stage succeeds. -/
def envW : Env :=
  { sha1 := fun _ => [1]
    sha256 := fun _ => [2]
    asn1ParseSet := fun _ => some [[0]]
    asn1ParseDigestAttr := fun _ => some { digest := [[2]] }
    asn1ParseEncapsulatedData := fun _ => some { el1 := [1, 1], el2 := [7, 7] }
    parseCert := fun _ => some { publicKey := .rsa 0 }
    rsaVerify := fun _ _ _ => true
    ecdsaVerify := fun _ _ _ => true
    groth16Verify := fun _ _ => true
    x509Verify := fun _ _ => some 1
    poseidonHash := fun l => some (l.foldl (fun a b => a * 1000 + b) 7)
    poseidonHashBytes := fun _ => some 77
    blinder := some 5
    uuidParse := fun s => some s
    now := { year := 2024, month := 5, day := 6 } }

def cfgW : VerifierConfig :=
  { verificationKeys := fun _ => 0, masterCerts := "m", allowedAge := 18 }

def issW : IssuerEnv :=
  { did := "did:iss"
    credentialSchema := "sch"
    claimType := "typ"
    getCredential := fun _ => some { revoked := false, revocationNonce := 3 }
    revokeClaim := fun _ => true
    postClaim := fun _ => some "gid" }

/-- A request that passes every stage under envW and cfgW. -/
def reqW : RequestData :=
  { id := "did:user"
    zkProof := { pubSignals := ["1", "1", "2", "24", "5", "6", "24", "5", "6", "99"],
                 proofData := 0 }
    userID := "uid-1"
    userAddress := "0xabc"
    documentSOD :=
      { signedAttributes := ""
        algorithm := "sha256WithRSAEncryption"
        signature := ""
        pemFile := "pem"
        encapsulatedContent := "" } }

/-- A prior claim row for the same document fingerprint as reqW. -/
def dbW : List Claim :=
  [{ id := "old", userDID := "odid", userID := "ouid", userAddress := "oaddr",
     issuerDID := "idid", documentHash := "77" }]

/-- reqW with only nine public signals: the age signal access is out of
bounds. -/
def reqShortSig : RequestData :=
  { reqW with zkProof := { pubSignals := ["1", "1", "2", "24", "5", "6", "24", "5", "6"],
                           proofData := 0 } }

/-- reqW with an RSA-PSS algorithm string. -/
def reqPSS : RequestData :=
  { reqW with documentSOD := { reqW.documentSOD with algorithm := "rsassa-pss" } }

/-- envW with a digest attribute that cannot match the content hash. -/
def envMismatch : Env :=
  { envW with asn1ParseDigestAttr := fun _ => some { digest := [[9]] } }

/-- envW whose certificate carries an ECDSA public key, mismatching the
RSA algorithm of reqW. -/
def envEC : Env :=
  { envW with parseCert := fun _ => some { publicKey := .ecdsa 0 } }

/-! ## Helper lemmas: byte encodings -/

theorem natBytesF_zero (f : Nat) : natBytesF f 0 = [] := by
  cases f <;> simp [natBytesF]

theorem natBytesF_congr : ∀ f g n, n ≤ f → n ≤ g → natBytesF f n = natBytesF g n := by
  intro f
  induction f with
  | zero =>
    intro g n hf _
    have h0 : n = 0 := Nat.le_zero.mp hf
    subst h0
    rw [natBytesF_zero, natBytesF_zero]
  | succ f ih =>
    intro g n hf hg
    cases g with
    | zero =>
      have h0 : n = 0 := Nat.le_zero.mp hg
      subst h0
      rw [natBytesF_zero, natBytesF_zero]
    | succ g =>
      by_cases h0 : n = 0
      · subst h0; rw [natBytesF_zero, natBytesF_zero]
      · have hlt : n / 256 < n := Nat.div_lt_self (Nat.pos_of_ne_zero h0) (by omega)
        simp only [natBytesF, if_neg h0]
        have := ih g (n / 256) (by omega) (by omega)
        rw [this]

theorem natBytes_eq (n : Nat) :
    natBytes n = if n = 0 then [] else natBytes (n / 256) ++ [n % 256] := by
  cases n with
  | zero => rfl
  | succ m =>
    have hne : (m + 1 : Nat) ≠ 0 := Nat.succ_ne_zero m
    have hlt : (m + 1) / 256 < m + 1 := Nat.div_lt_self (Nat.succ_pos m) (by omega)
    simp only [natBytes, natBytesF, if_neg hne]
    rw [natBytesF_congr m ((m + 1) / 256) ((m + 1) / 256) (by omega) (le_refl _)]

theorem natBytes_length_le : ∀ k n, n < 256 ^ k → (natBytes n).length ≤ k := by
  intro k
  induction k with
  | zero =>
    intro n h
    have h0 : n = 0 := by simpa using h
    subst h0
    simp [natBytes, natBytesF]
  | succ k ih =>
    intro n h
    rw [natBytes_eq]
    by_cases h0 : n = 0
    · simp [h0]
    · simp only [if_neg h0, List.length_append, List.length_cons, List.length_nil]
      have hd : n / 256 < 256 ^ k := by
        have := (Nat.div_lt_iff_lt_mul (by omega : 0 < 256)).mpr
          (by rw [← pow_succ]; exact h)
        exact this
      have := ih (n / 256) hd
      omega

theorem bytesToNat_lt : ∀ l : List Nat, (∀ v ∈ l, v < 256) → bytesToNat l < 256 ^ l.length := by
  intro l
  induction l with
  | nil => intro _; simp [bytesToNat]
  | cons b t ih =>
    intro h
    have hb : b < 256 := h b (by simp)
    have ht : bytesToNat t < 256 ^ t.length := ih (fun v hv => h v (by simp [hv]))
    simp only [bytesToNat, List.length_cons]
    have h1 : b * 256 ^ t.length ≤ 255 * 256 ^ t.length :=
      Nat.mul_le_mul_right _ (by omega)
    have h2 : 256 ^ (t.length + 1) = 256 ^ t.length * 256 := pow_succ 256 t.length
    omega

theorem intBytes_ofNat (n : Nat) : intBytes (n : Int) = natBytes n := by
  simp [intBytes]

/-! ## Helper lemmas: small inversions -/

theorem failResponse_ne_ok (fp : FailPoint) (c d : String) (u : Option String) :
    failResponse fp ≠ .ok c d u := by
  cases fp <;> simp [failResponse]

theorem issueVotingClaim_ok_elim (env : Env) (iss : IssuerEnv) (id : String) (auth : Int)
    (adult : Bool) (exp : GoDate) (dg2 : List Nat) (blinder : Int) (ua uid dh : String)
    (cid : String) (log : List IssuerCall)
    (h : issueVotingClaim env iss id auth adult exp dg2 blinder ua uid dh = (.ok cid, log)) :
    ∃ n ch,
      env.poseidonHash (nullifierHashInput dg2 blinder) = some n ∧
      env.poseidonHash [1, auth, n] = some ch ∧
      log = [.create (ivcRequest iss id auth adult ua uid dh n ch)] ∧
      iss.postClaim (ivcRequest iss id auth adult ua uid dh n ch) = some cid := by
  simp only [issueVotingClaim] at h
  cases hn : env.poseidonHash (nullifierHashInput dg2 blinder) with
  | none => simp [hn] at h
  | some n =>
    simp only [hn] at h
    cases hc : env.poseidonHash [1, auth, n] with
    | none => simp [hc] at h
    | some ch =>
      simp only [hc] at h
      cases hp : iss.postClaim (ivcRequest iss id auth adult ua uid dh n ch) with
      | none => simp [hp] at h
      | some cid' =>
        simp only [hp, Prod.mk.injEq, Except.ok.injEq] at h
        obtain ⟨hcid, hlog⟩ := h
        exact ⟨n, ch, rfl, hc, hlog.symm, by rw [hp, hcid]⟩

theorem revokeOutdatedClaim_ok_elim (iss : IssuerEnv) (db : List Claim) (cid : String)
    (db2 : List Claim) (log : List IssuerCall)
    (h : revokeOutdatedClaim iss db cid = (.ok db2, log)) :
    db2 = deleteByID db cid ∧
    ∃ cred, iss.getCredential cid = some cred ∧
      (cred.revoked = false → IssuerCall.revoke cred.revocationNonce ∈ log) := by
  simp only [revokeOutdatedClaim] at h
  cases hg : iss.getCredential cid with
  | none => simp [hg] at h
  | some cred =>
    simp only [hg] at h
    cases hr : cred.revoked with
    | false =>
      rw [hr] at h
      cases hrev : iss.revokeClaim cred.revocationNonce with
      | false => rw [hrev] at h; simp at h
      | true =>
        rw [hrev] at h
        simp only [Bool.not_false, if_true, Prod.mk.injEq, Except.ok.injEq] at h
        obtain ⟨hdb, hlog⟩ := h
        exact ⟨hdb.symm, cred, rfl, fun _ => by rw [← hlog]; simp⟩
    | true =>
      rw [hr] at h
      simp only [Bool.not_true, Bool.false_eq_true, if_false, Prod.mk.injEq,
        Except.ok.injEq] at h
      obtain ⟨hdb, hlog⟩ := h
      exact ⟨hdb.symm, cred, rfl, fun hfalse => by rw [hfalse] at hr; exact Bool.noConfusion hr⟩

theorem revokeLoop_ok_sub (iss : IssuerEnv) (ru : String) :
    ∀ (cs db : List Claim) (uid0 : Option String) (db' : List Claim) (uid' : Option String)
      (log : List IssuerCall),
      revokeLoop iss ru cs db uid0 = (.ok db', uid', log) →
      ∀ r ∈ db', r ∈ db ∧ ∀ c ∈ cs, ¬ r.id = c.id := by
  intro cs
  induction cs with
  | nil =>
    intro db uid0 db' uid' log h r hr
    simp only [revokeLoop, Prod.mk.injEq, Except.ok.injEq] at h
    obtain ⟨hdb, _, _⟩ := h
    subst hdb
    exact ⟨hr, by simp⟩
  | cons c rest ih =>
    intro db uid0 db' uid' log h r hr
    simp only [revokeLoop] at h
    cases hrc : revokeOutdatedClaim iss db c.id with
    | mk r1 log1 =>
      rw [hrc] at h
      cases r1 with
      | error e => simp at h
      | ok dbm =>
        simp only [] at h
        cases hloop : revokeLoop iss ru rest dbm (some ru) with
        | mk rr uidlog =>
          obtain ⟨uidF, log2⟩ := uidlog
          rw [hloop] at h
          simp only [Prod.mk.injEq] at h
          obtain ⟨hr1, huid, hlog⟩ := h
          subst hr1
          have hmem := ih dbm (some ru) db' uidF log2 (by rw [hloop]) r hr
          obtain ⟨hrm, hrest⟩ := hmem
          have hdbm := (revokeOutdatedClaim_ok_elim iss db c.id dbm log1 hrc).1
          subst hdbm
          simp only [deleteByID, List.mem_filter, Bool.not_eq_true'] at hrm
          obtain ⟨hrdb, hrid⟩ := hrm
          refine ⟨hrdb, ?_⟩
          intro c' hc'
          rcases List.mem_cons.mp hc' with hcc | hcc
          · subst hcc
            intro hcontra
            rw [← hcontra] at hrid
            simp at hrid
          · exact hrest c' hcc

theorem revokeLoop_ok_revokes (iss : IssuerEnv) (ru : String) :
    ∀ (cs db : List Claim) (uid0 : Option String) (db' : List Claim) (uid' : Option String)
      (log : List IssuerCall),
      revokeLoop iss ru cs db uid0 = (.ok db', uid', log) →
      ∀ c ∈ cs, ∃ cred, iss.getCredential c.id = some cred ∧
        (cred.revoked = false → IssuerCall.revoke cred.revocationNonce ∈ log) := by
  intro cs
  induction cs with
  | nil => intro db uid0 db' uid' log _ c hc; simp at hc
  | cons c0 rest ih =>
    intro db uid0 db' uid' log h c hc
    simp only [revokeLoop] at h
    cases hrc : revokeOutdatedClaim iss db c0.id with
    | mk r1 log1 =>
      rw [hrc] at h
      cases r1 with
      | error e => simp at h
      | ok dbm =>
        simp only [] at h
        cases hloop : revokeLoop iss ru rest dbm (some ru) with
        | mk rr uidlog =>
          obtain ⟨uidF, log2⟩ := uidlog
          rw [hloop] at h
          simp only [Prod.mk.injEq] at h
          obtain ⟨hr1, huid, hlog⟩ := h
          subst hr1
          rcases List.mem_cons.mp hc with hcc | hcc
          · subst hcc
            obtain ⟨_, cred, hcred, hrev⟩ :=
              revokeOutdatedClaim_ok_elim iss db c.id dbm log1 hrc
            refine ⟨cred, hcred, fun hf => ?_⟩
            rw [← hlog]
            exact List.mem_append_left _ (hrev hf)
          · obtain ⟨cred, hcred, hrev⟩ := ih dbm (some ru) db' uidF log2 (by rw [hloop]) c hcc
            refine ⟨cred, hcred, fun hf => ?_⟩
            rw [← hlog]
            exact List.mem_append_right _ (hrev hf)

theorem revokeLoop_ok_uid (iss : IssuerEnv) (ru : String) :
    ∀ (cs db : List Claim) (uid0 : Option String) (db' : List Claim) (uid' : Option String)
      (log : List IssuerCall),
      revokeLoop iss ru cs db uid0 = (.ok db', uid', log) →
      uid' = if cs.isEmpty then uid0 else some ru := by
  intro cs
  induction cs with
  | nil =>
    intro db uid0 db' uid' log h
    simp only [revokeLoop, Prod.mk.injEq] at h
    simp [h.2.1.symm]
  | cons c0 rest ih =>
    intro db uid0 db' uid' log h
    simp only [revokeLoop] at h
    cases hrc : revokeOutdatedClaim iss db c0.id with
    | mk r1 log1 =>
      rw [hrc] at h
      cases r1 with
      | error e => simp at h
      | ok dbm =>
        simp only [] at h
        cases hloop : revokeLoop iss ru rest dbm (some ru) with
        | mk rr uidlog =>
          obtain ⟨uidF, log2⟩ := uidlog
          rw [hloop] at h
          simp only [Prod.mk.injEq] at h
          obtain ⟨hr1, huid, hlog⟩ := h
          have := ih dbm (some ru) db' uidF log2 (by rw [hloop]; rw [← hr1])
          rw [← huid]
          rcases Bool.eq_false_or_eq_true rest.isEmpty with he | he <;> simp [he] at this <;>
            simp [this]

theorem preTx_ok_elim (env : Env) (cfg : VerifierConfig) (req : RequestData) (pd : PreData)
    (h : preTx env cfg req = .ok pd) :
    signatureAlgorithm req.documentSOD.algorithm = pd.algo ∧
    pd.algo ≠ "" ∧
    hexDecode req.documentSOD.signedAttributes = some pd.saBytes ∧
    hexDecode req.documentSOD.encapsulatedContent = some pd.ecBytes ∧
    validateSignedAttributes env pd.saBytes pd.ecBytes pd.algo = .ok () ∧
    env.parseCert req.documentSOD.pemFile = some pd.cert ∧
    verifySignature env req pd.cert pd.saBytes pd.algo = .ok ∧
    zkGate env cfg req.zkProof pd.algo = .ok () ∧
    env.asn1ParseEncapsulatedData pd.ecBytes = some pd.ed ∧
    validatePubSignals cfg env.now pd.ed.el1 req.zkProof.pubSignals = .ok () ∧
    validateCert env pd.cert cfg.masterCerts = .ok () ∧
    getExpirationTimeFromPubSignals req.zkProof.pubSignals = .ok pd.expiration ∧
    (∃ s2, goIndex req.zkProof.pubSignals 2 = some s2 ∧ atoi s2 = some pd.issuingAuthority) ∧
    env.blinder = some pd.blinder ∧
    signedAttributesPoseidonHash env req.documentSOD.signedAttributes pd.blinder
      = some pd.fingerprint := by
  simp only [preTx] at h
  by_cases halg : signatureAlgorithm req.documentSOD.algorithm = ""
  · rw [if_pos halg] at h; exact absurd h (by simp)
  rw [if_neg halg] at h
  cases hsa : hexDecode req.documentSOD.signedAttributes with
  | none => simp [hsa] at h
  | some saB =>
  simp only [hsa] at h
  cases hec : hexDecode req.documentSOD.encapsulatedContent with
  | none => simp [hec] at h
  | some ecB =>
  simp only [hec] at h
  cases hval : validateSignedAttributes env saB ecB (signatureAlgorithm req.documentSOD.algorithm)
    with
  | error e => simp [hval] at h
  | ok u =>
  cases u
  simp only [hval] at h
  cases hcert : env.parseCert req.documentSOD.pemFile with
  | none => simp [hcert] at h
  | some cert =>
  simp only [hcert] at h
  cases hsig : verifySignature env req cert saB (signatureAlgorithm req.documentSOD.algorithm) with
  | err => simp [hsig] at h
  | panicAssert => simp [hsig] at h
  | ok =>
  simp only [hsig] at h
  cases hzk : zkGate env cfg req.zkProof (signatureAlgorithm req.documentSOD.algorithm) with
  | error fp => simp [hzk] at h
  | ok u =>
  cases u
  simp only [hzk] at h
  cases hed : env.asn1ParseEncapsulatedData ecB with
  | none => simp [hed] at h
  | some ed =>
  simp only [hed] at h
  cases hps : validatePubSignals cfg env.now ed.el1 req.zkProof.pubSignals with
  | error e => cases e <;> simp [hps] at h
  | ok u =>
  cases u
  simp only [hps] at h
  cases hvc : validateCert env cert cfg.masterCerts with
  | error e => simp [hvc] at h
  | ok u =>
  cases u
  simp only [hvc] at h
  cases hexp : getExpirationTimeFromPubSignals req.zkProof.pubSignals with
  | error e => cases e <;> simp [hexp] at h
  | ok expv =>
  simp only [hexp] at h
  cases hs2 : goIndex req.zkProof.pubSignals 2 with
  | none => simp [hs2] at h
  | some s2 =>
  simp only [hs2] at h
  cases hauth : atoi s2 with
  | none => simp [hauth] at h
  | some auth =>
  simp only [hauth] at h
  cases hbl : env.blinder with
  | none => simp [hbl] at h
  | some b =>
  simp only [hbl] at h
  cases hfp : signedAttributesPoseidonHash env req.documentSOD.signedAttributes b with
  | none => simp [hfp] at h
  | some fp =>
  simp only [hfp, Except.ok.injEq] at h
  subst h
  exact ⟨rfl, halg, rfl, rfl, hval, rfl, hsig, hzk, hed, hps, hvc, rfl, ⟨s2, rfl, hauth⟩,
    rfl, hfp⟩

theorem runTx_ok_elim (env : Env) (iss : IssuerEnv) (req : RequestData) (auth : Int)
    (exp : GoDate) (dg2 : List Nat) (blinder : Int) (fp : Nat) (db db' : List Claim)
    (cid : String) (uid : Option String) (log : List IssuerCall)
    (h : runTx env iss req auth exp dg2 blinder fp db = (.ok (db', cid, uid), log)) :
    ∃ db1 log1 cr pid,
      revokeLoop iss req.userID (db.filter (fun c => c.documentHash == Nat.repr fp)) db none
        = (.ok db1, uid, log1) ∧
      issueVotingClaim env iss req.id auth true exp dg2 blinder req.userAddress req.userID
        (Nat.repr fp) = (.ok cid, [.create cr]) ∧
      env.uuidParse cid = some pid ∧
      db' = db1 ++ [{ id := pid, userDID := req.id, userID := req.userID,
                      userAddress := req.userAddress, issuerDID := iss.did,
                      documentHash := Nat.repr fp }] ∧
      log = log1 ++ [.create cr] := by
  simp only [runTx] at h
  cases hloop : revokeLoop iss req.userID
      (db.filter (fun c => c.documentHash == Nat.repr fp)) db none with
  | mk r1 rest1 =>
    obtain ⟨uid1, log1⟩ := rest1
    rw [hloop] at h
    cases r1 with
    | error e => simp at h
    | ok db1 =>
      simp only [] at h
      cases hiss : issueVotingClaim env iss req.id auth true exp dg2 blinder req.userAddress
          req.userID (Nat.repr fp) with
      | mk r2 log2 =>
        rw [hiss] at h
        cases r2 with
        | error e => simp at h
        | ok cid1 =>
          simp only [] at h
          cases hpid : env.uuidParse cid1 with
          | none => simp [hpid] at h
          | some pid =>
            simp only [hpid, Prod.mk.injEq, Except.ok.injEq] at h
            obtain ⟨⟨hdb, hcid, huid⟩, hlog⟩ := h
            subst hcid
            obtain ⟨n, ch, hpn, hpc, hlog2, hpost⟩ :=
              issueVotingClaim_ok_elim env iss req.id auth true exp dg2 blinder
                req.userAddress req.userID (Nat.repr fp) cid1 log2 hiss
            refine ⟨db1, log1, ivcRequest iss req.id auth true req.userAddress req.userID
              (Nat.repr fp) n ch, pid, ?_, ?_, hpid, hdb.symm, ?_⟩
            · rw [huid]
            · rw [hlog2]
            · rw [← hlog, hlog2]

theorem createIdentity_ok_elim (env : Env) (cfg : VerifierConfig) (iss : IssuerEnv)
    (req : RequestData) (db : List Claim) (c d : String) (u : Option String)
    (h : (CreateIdentity env cfg iss req db).response = .ok c d u) :
    ∃ pd db1 log1 cr pid,
      preTx env cfg req = .ok pd ∧
      revokeLoop iss req.userID
          (db.filter (fun r => r.documentHash == Nat.repr pd.fingerprint)) db none
        = (.ok db1, u, log1) ∧
      issueVotingClaim env iss req.id pd.issuingAuthority true pd.expiration pd.ed.el2
          pd.blinder req.userAddress req.userID (Nat.repr pd.fingerprint)
        = (.ok c, [.create cr]) ∧
      env.uuidParse c = some pid ∧
      d = iss.did ∧
      (CreateIdentity env cfg iss req db).db =
        db1 ++ [{ id := pid, userDID := req.id, userID := req.userID,
                  userAddress := req.userAddress, issuerDID := iss.did,
                  documentHash := Nat.repr pd.fingerprint }] ∧
      (CreateIdentity env cfg iss req db).issuerCalls = log1 ++ [.create cr] ∧
      (CreateIdentity env cfg iss req db).trace = fullTrace := by
  cases hpre : preTx env cfg req with
  | error fp =>
    simp only [CreateIdentity, hpre] at h
    exact absurd h (failResponse_ne_ok fp c d u)
  | ok pd =>
    simp only [CreateIdentity, hpre] at h
    cases hrun : runTx env iss req pd.issuingAuthority pd.expiration pd.ed.el2 pd.blinder
        pd.fingerprint db with
    | mk r log =>
      rw [hrun] at h
      cases r with
      | error e => simp at h
      | ok triple =>
        obtain ⟨db', cid, uid⟩ := triple
        simp only [Response.ok.injEq] at h
        obtain ⟨hcid, hdid, huid⟩ := h
        subst hcid hdid huid
        obtain ⟨db1, log1, cr, pid, hloop, hiss, hpid, hdb, hlog⟩ :=
          runTx_ok_elim env iss req pd.issuingAuthority pd.expiration pd.ed.el2 pd.blinder
            pd.fingerprint db db' cid uid log hrun
        refine ⟨pd, db1, log1, cr, pid, rfl, hloop, hiss, hpid, rfl, ?_, ?_, ?_⟩
        · simp only [CreateIdentity, hpre, hrun]
          exact hdb
        · simp only [CreateIdentity, hpre, hrun]
          exact hlog
        · simp only [CreateIdentity, hpre, hrun]

/-! ## Claim theorems -/

/-- Claim C1: for every request on which the issuance transaction commits
successfully, at the end of the transaction exactly one claim row whose
document_hash equals the request fingerprint exists, it is the row
inserted during this call (its id is the parsed issuer claim id, its
fields come from the request), and every prior row with that
document_hash was revoked (via the issuer RPC when not already revoked)
and deleted before the new claim was issued and inserted (all revocation
RPCs precede the create RPC in the log, and the prior rows are absent
from the pre-insert database). -/
theorem createIdentity_unique_active_claim :
    ∀ (env : Env) (cfg : VerifierConfig) (iss : IssuerEnv) (req : RequestData)
      (db : List Claim) (c d : String) (u : Option String),
      (CreateIdentity env cfg iss req db).response = .ok c d u →
      ∃ (b : Int) (hsh : Nat) (pid : String) (db1 : List Claim)
        (loopLog : List IssuerCall) (cr : CredentialRequest),
        env.blinder = some b ∧
        signedAttributesPoseidonHash env req.documentSOD.signedAttributes b = some hsh ∧
        env.uuidParse c = some pid ∧
        (CreateIdentity env cfg iss req db).db =
          db1 ++ [{ id := pid, userDID := req.id, userID := req.userID,
                    userAddress := req.userAddress, issuerDID := iss.did,
                    documentHash := Nat.repr hsh }] ∧
        (CreateIdentity env cfg iss req db).db.filter
            (fun r => r.documentHash == Nat.repr hsh) =
          [{ id := pid, userDID := req.id, userID := req.userID,
             userAddress := req.userAddress, issuerDID := iss.did,
             documentHash := Nat.repr hsh }] ∧
        (CreateIdentity env cfg iss req db).issuerCalls = loopLog ++ [.create cr] ∧
        (∀ r ∈ db, r.documentHash = Nat.repr hsh →
          r ∉ db1 ∧
          ∃ cred, iss.getCredential r.id = some cred ∧
            (cred.revoked = false → IssuerCall.revoke cred.revocationNonce ∈ loopLog)) := by
  intro env cfg iss req db c d u h
  obtain ⟨pd, db1, log1, cr, pid, hpre, hloop, hiss, hpid, hdid, hdb, hlog, htr⟩ :=
    createIdentity_ok_elim env cfg iss req db c d u h
  obtain ⟨_, _, _, _, _, _, _, _, _, _, _, _, _, hbl, hfp⟩ := preTx_ok_elim env cfg req pd hpre
  have hnil : db1.filter (fun r => r.documentHash == Nat.repr pd.fingerprint) = [] := by
    rw [List.filter_eq_nil_iff]
    intro r hr
    obtain ⟨hrdb, hrids⟩ :=
      revokeLoop_ok_sub iss req.userID _ db none db1 u log1 hloop r hr
    intro hbeq
    have hrhash : r.documentHash = Nat.repr pd.fingerprint := by simpa using hbeq
    have hrc : r ∈ db.filter (fun r => r.documentHash == Nat.repr pd.fingerprint) :=
      List.mem_filter.mpr ⟨hrdb, by simp [hrhash]⟩
    exact (hrids r hrc) rfl
  refine ⟨pd.blinder, pd.fingerprint, pid, db1, log1, cr, hbl, hfp, hpid, hdb, ?_, hlog, ?_⟩
  · rw [hdb, List.filter_append, hnil]
    simp
  · intro r hr hrhash
    have hrc : r ∈ db.filter (fun r => r.documentHash == Nat.repr pd.fingerprint) :=
      List.mem_filter.mpr ⟨hr, by simp [hrhash]⟩
    constructor
    · intro hmem
      obtain ⟨_, hrids⟩ :=
        revokeLoop_ok_sub iss req.userID _ db none db1 u log1 hloop r hmem
      exact (hrids r hrc) rfl
    · exact revokeLoop_ok_revokes iss req.userID _ db none db1 u log1 hloop r hrc

/-- Witness for C1: the benign concrete run over a database holding one
prior claim for the same fingerprint commits and satisfies the
uniqueness conclusion. -/
theorem createIdentity_unique_active_claim_witness :
    ∃ (b : Int) (hsh : Nat) (pid : String) (db1 : List Claim)
      (loopLog : List IssuerCall) (cr : CredentialRequest),
      envW.blinder = some b ∧
      signedAttributesPoseidonHash envW reqW.documentSOD.signedAttributes b = some hsh ∧
      envW.uuidParse "gid" = some pid ∧
      (CreateIdentity envW cfgW issW reqW dbW).db =
        db1 ++ [{ id := pid, userDID := reqW.id, userID := reqW.userID,
                  userAddress := reqW.userAddress, issuerDID := issW.did,
                  documentHash := Nat.repr hsh }] ∧
      (CreateIdentity envW cfgW issW reqW dbW).db.filter
          (fun r => r.documentHash == Nat.repr hsh) =
        [{ id := pid, userDID := reqW.id, userID := reqW.userID,
           userAddress := reqW.userAddress, issuerDID := issW.did,
           documentHash := Nat.repr hsh }] ∧
      (CreateIdentity envW cfgW issW reqW dbW).issuerCalls = loopLog ++ [.create cr] ∧
      (∀ r ∈ dbW, r.documentHash = Nat.repr hsh →
        r ∉ db1 ∧
        ∃ cred, issW.getCredential r.id = some cred ∧
          (cred.revoked = false → IssuerCall.revoke cred.revocationNonce ∈ loopLog)) :=
  createIdentity_unique_active_claim envW cfgW issW reqW dbW "gid" "did:iss" (some "uid-1")
    (by decide)

/-- Claim C3 (amended): within a single request the stages execute in
the fixed source order SOD decode, signature verification, Groth16
verification, public-signal validation, certificate-chain validation,
nullifier and fingerprint hashing, issuance transaction; in particular
certificate-chain validation runs after Groth16 verification and after
public-signal validation, not before. -/
theorem createIdentity_stage_order :
    ∀ (env : Env) (cfg : VerifierConfig) (iss : IssuerEnv) (req : RequestData)
      (db : List Claim) (c d : String) (u : Option String),
      (CreateIdentity env cfg iss req db).response = .ok c d u →
      (CreateIdentity env cfg iss req db).trace = fullTrace ∧
      fullTrace.findIdx (fun s => s == Stage.groth16) <
        fullTrace.findIdx (fun s => s == Stage.certValidate) ∧
      fullTrace.findIdx (fun s => s == Stage.pubSignals) <
        fullTrace.findIdx (fun s => s == Stage.certValidate) := by
  intro env cfg iss req db c d u h
  obtain ⟨pd, db1, log1, cr, pid, hpre, hloop, hiss, hpid, hdid, hdb, hlog, htr⟩ :=
    createIdentity_ok_elim env cfg iss req db c d u h
  exact ⟨htr, by decide, by decide⟩

/-- Witness for the amended C3 at a benign concrete run. -/
theorem createIdentity_stage_order_witness :
    (CreateIdentity envW cfgW issW reqW []).trace = fullTrace ∧
    fullTrace.findIdx (fun s => s == Stage.groth16) <
      fullTrace.findIdx (fun s => s == Stage.certValidate) ∧
    fullTrace.findIdx (fun s => s == Stage.pubSignals) <
      fullTrace.findIdx (fun s => s == Stage.certValidate) :=
  createIdentity_stage_order envW cfgW issW reqW [] "gid" "did:iss" none (by decide)

/-- Counterexample to C3 as stated: in a successful concrete run the
trace places the Groth16 stage and the public-signal stage strictly
before certificate-chain validation, so chain validation is not
performed before Groth16 proof verification. -/
theorem createIdentity_cert_after_groth16_cex :
    (CreateIdentity envW cfgW issW reqW dbW).response
      = Response.ok "gid" "did:iss" (some "uid-1") ∧
    (CreateIdentity envW cfgW issW reqW dbW).trace = fullTrace ∧
    fullTrace.findIdx (fun s => s == Stage.groth16) <
      fullTrace.findIdx (fun s => s == Stage.certValidate) ∧
    fullTrace.findIdx (fun s => s == Stage.certValidate) < fullTrace.length := by
  decide

/-- Claim C4: a declared-algorithm versus key-kind mismatch does not
yield a verification-failure error; the unchecked type assertion makes
verifySignature panic, and the panic is reachable through the public
handler (the code bug the claim contradicts). -/
theorem verifySignature_mismatch_panics :
    verifySignature envW reqW { publicKey := .ecdsa 0 } [] SHA256withRSA = .panicAssert ∧
    verifySignature envW reqW { publicKey := .rsa 0 } [] SHA1withECDSA = .panicAssert ∧
    verifySignature envW reqW { publicKey := .rsa 0 } [] SHA256withECDSA = .panicAssert ∧
    (CreateIdentity envEC cfgW issW reqW []).response = .panicked := by
  decide

/-- Claim C5: the document nullifier is the Poseidon hash of the DG2
halves (single limb below 32 bytes) with the blinder appended, exactly
the sequence the specification words describe, and the credential hash
is the Poseidon hash of [1, issuing_authority, document_nullifier]; the
posted credential request carries exactly these two values. -/
theorem nullifier_credential_hash_formulas :
    (∀ (dg2 : List Nat) (blinder : Int),
      nullifierHashInput dg2 blinder = specNullifierInput dg2 blinder) ∧
    (∀ (env : Env) (iss : IssuerEnv) (id : String) (auth : Int) (adult : Bool)
       (exp : GoDate) (dg2 : List Nat) (blinder : Int) (ua uid dh cid : String)
       (log : List IssuerCall),
      issueVotingClaim env iss id auth adult exp dg2 blinder ua uid dh = (.ok cid, log) →
      ∃ (n ch : Int) (cr : CredentialRequest),
        env.poseidonHash (specNullifierInput dg2 blinder) = some n ∧
        env.poseidonHash [1, auth, n] = some ch ∧
        log = [.create cr] ∧
        cr.credentialSubject.documentNullifier = n ∧
        cr.credentialSubject.credentialHash = ch) := by
  constructor
  · intro dg2 blinder; rfl
  · intro env iss id auth adult exp dg2 blinder ua uid dh cid log h
    obtain ⟨n, ch, hn, hc, hlog, _⟩ :=
      issueVotingClaim_ok_elim env iss id auth adult exp dg2 blinder ua uid dh cid log h
    exact ⟨n, ch, ivcRequest iss id auth adult ua uid dh n ch, hn, hc, hlog, rfl, rfl⟩

/-- Witness for C5 at a concrete successful issuance. -/
theorem nullifier_credential_hash_witness :
    ∃ (n ch : Int) (cr : CredentialRequest),
      envW.poseidonHash (specNullifierInput [7, 7] 5) = some n ∧
      envW.poseidonHash [1, 2, n] = some ch ∧
      [IssuerCall.create (ivcRequest issW "did:user" 2 true "0xabc" "uid-1" "77"
          8799005 7009801005)] = [IssuerCall.create cr] ∧
      cr.credentialSubject.documentNullifier = n ∧
      cr.credentialSubject.credentialHash = ch :=
  nullifier_credential_hash_formulas.2 envW issW "did:user" 2 true
    { year := 2024, month := 5, day := 6 } [7, 7] 5 "0xabc" "uid-1" "77" "gid"
    [IssuerCall.create (ivcRequest issW "did:user" 2 true "0xabc" "uid-1" "77"
      8799005 7009801005)] (by decide)

/-- Claim C6: the persisted document_hash is the decimal text of the
byte-oriented Poseidon hash of the signed-attributes bytes concatenated
with the big-endian blinder bytes; it depends on nothing besides the
byte-oriented Poseidon oracle, the signed-attributes hex string and the
blinder, and the row inserted by a successful run carries exactly this
value. -/
theorem document_hash_fingerprint :
    (∀ (env env' : Env) (sa : String) (b : Int),
      env.poseidonHashBytes = env'.poseidonHashBytes →
      signedAttributesPoseidonHash env sa b = signedAttributesPoseidonHash env' sa b) ∧
    (∀ (env : Env) (sa : String) (b : Int) (saBytes : List Nat),
      hexDecode sa = some saBytes →
      signedAttributesPoseidonHash env sa b = env.poseidonHashBytes (saBytes ++ intBytes b)) ∧
    (∀ (env : Env) (cfg : VerifierConfig) (iss : IssuerEnv) (req : RequestData)
       (db : List Claim) (c d : String) (u : Option String),
      (CreateIdentity env cfg iss req db).response = .ok c d u →
      ∃ (b : Int) (hsh : Nat) (pid : String) (db1 : List Claim),
        env.blinder = some b ∧
        signedAttributesPoseidonHash env req.documentSOD.signedAttributes b = some hsh ∧
        (CreateIdentity env cfg iss req db).db =
          db1 ++ [{ id := pid, userDID := req.id, userID := req.userID,
                    userAddress := req.userAddress, issuerDID := iss.did,
                    documentHash := Nat.repr hsh }]) := by
  refine ⟨?_, ?_, ?_⟩
  · intro env env' sa b hpb
    simp only [signedAttributesPoseidonHash]
    cases hd : hexDecode sa with
    | none => rfl
    | some saB => rw [hpb]
  · intro env sa b saBytes hd
    simp only [signedAttributesPoseidonHash, hd]
  · intro env cfg iss req db c d u h
    obtain ⟨pd, db1, log1, cr, pid, hpre, hloop, hiss, hpid, hdid, hdb, hlog, htr⟩ :=
      createIdentity_ok_elim env cfg iss req db c d u h
    obtain ⟨_, _, _, _, _, _, _, _, _, _, _, _, _, hbl, hfp⟩ := preTx_ok_elim env cfg req pd hpre
    exact ⟨pd.blinder, pd.fingerprint, pid, db1, hbl, hfp, hdb⟩

/-- Witness for C6 at a benign concrete run. -/
theorem document_hash_fingerprint_witness :
    ∃ (b : Int) (hsh : Nat) (pid : String) (db1 : List Claim),
      envW.blinder = some b ∧
      signedAttributesPoseidonHash envW reqW.documentSOD.signedAttributes b = some hsh ∧
      (CreateIdentity envW cfgW issW reqW dbW).db =
        db1 ++ [{ id := pid, userDID := reqW.id, userID := reqW.userID,
                  userAddress := reqW.userAddress, issuerDID := issW.did,
                  documentHash := Nat.repr hsh }] :=
  document_hash_fingerprint.2.2 envW cfgW issW reqW dbW "gid" "did:iss" (some "uid-1")
    (by decide)

/-- Claim C7: in every success response the user_id attribute is present
exactly when the database held a prior claim row for the same document
fingerprint (whose revocation this call then performed), and when
present it equals the user_id of the current request. -/
theorem createIdentity_userId_field :
    ∀ (env : Env) (cfg : VerifierConfig) (iss : IssuerEnv) (req : RequestData)
      (db : List Claim) (c d : String) (u : Option String),
      (CreateIdentity env cfg iss req db).response = .ok c d u →
      ∃ (b : Int) (hsh : Nat),
        env.blinder = some b ∧
        signedAttributesPoseidonHash env req.documentSOD.signedAttributes b = some hsh ∧
        u = (if (db.filter (fun r => r.documentHash == Nat.repr hsh)).isEmpty then none
             else some req.userID) := by
  intro env cfg iss req db c d u h
  obtain ⟨pd, db1, log1, cr, pid, hpre, hloop, hiss, hpid, hdid, hdb, hlog, htr⟩ :=
    createIdentity_ok_elim env cfg iss req db c d u h
  obtain ⟨_, _, _, _, _, _, _, _, _, _, _, _, _, hbl, hfp⟩ := preTx_ok_elim env cfg req pd hpre
  exact ⟨pd.blinder, pd.fingerprint, hbl, hfp,
    revokeLoop_ok_uid iss req.userID _ db none db1 u log1 hloop⟩

/-- Witness for C7: with a prior row present the user_id equals the
request user id; the hypothesis is discharged at the concrete run. -/
theorem createIdentity_userId_field_witness :
    ∃ (b : Int) (hsh : Nat),
      envW.blinder = some b ∧
      signedAttributesPoseidonHash envW reqW.documentSOD.signedAttributes b = some hsh ∧
      (some "uid-1" : Option String)
        = (if (dbW.filter (fun r => r.documentHash == Nat.repr hsh)).isEmpty then none
           else some reqW.userID) :=
  createIdentity_userId_field envW cfgW issW reqW dbW "gid" "did:iss" (some "uid-1")
    (by decide)

/-! ## Further helper lemmas (algorithm table, indexing, DG1 binding) -/

theorem signatureAlgorithm_cases (s : String) :
    signatureAlgorithm s = "" ∨ signatureAlgorithm s = SHA1withECDSA ∨
    signatureAlgorithm s = SHA256withRSA ∨ signatureAlgorithm s = SHA256withECDSA := by
  simp only [signatureAlgorithm]
  split
  · exact Or.inl rfl
  · split
    · exact Or.inr (Or.inl rfl)
    · split
      · exact Or.inr (Or.inr (Or.inl rfl))
      · split
        · exact Or.inr (Or.inr (Or.inr rfl))
        · exact Or.inl rfl

theorem goIndex_none (l : List String) (i : Nat) (h : l.length ≤ i) : goIndex l i = none := by
  simp only [goIndex]
  exact List.get?_eq_none.mpr h

theorem dg1Hash_ok_iff (dg1 : List Nat) (s0 s1 : String) (rest : List String) :
    validatePubSignalsDG1Hash dg1 (s0 :: s1 :: rest) = .ok () ↔
      ∃ a b : Int, stringToBigInt s0 = some a ∧ stringToBigInt s1 = some b ∧
        dg1 = intBytes a ++ intBytes b := by
  have g0 : goIndex (s0 :: s1 :: rest) 0 = some s0 := rfl
  have g1 : goIndex (s0 :: s1 :: rest) 1 = some s1 := rfl
  constructor
  · intro hok
    simp only [validatePubSignalsDG1Hash, g0, g1, stringsToArrayBigInt] at hok
    cases ha : stringToBigInt s0 with
    | none => simp [ha] at hok
    | some a =>
      simp only [ha] at hok
      cases hb : stringToBigInt s1 with
      | none => simp [hb] at hok
      | some b =>
        simp only [hb, List.getD_cons_zero, List.getD_cons_succ] at hok
        by_cases hd : (dg1 == intBytes a ++ intBytes b) = true
        · exact ⟨a, b, rfl, rfl, by simpa using hd⟩
        · rw [if_neg hd] at hok
          exact absurd hok (by simp)
  · rintro ⟨a, b, ha, hb, hdg⟩
    simp [validatePubSignalsDG1Hash, g0, g1, stringsToArrayBigInt, ha, hb, hdg]

/-! ## Claim theorems (continued) -/

/-- Claim C2 (amended): a request whose decoded signed-attributes digest
attribute has a first digest value different from the algorithm-family
hash of the encapsulated content stops at the signed-attributes
validation stage: the handler renders internal_error (HTTP 500, not
400), the database is untouched and no issuer RPC occurs. -/
theorem digest_mismatch_stops_pipeline :
    ∀ (env : Env) (cfg : VerifierConfig) (iss : IssuerEnv) (req : RequestData)
      (db : List Claim) (saB ecB : List Nat) (attrs : List (List Nat))
      (da : DigestAttribute),
      (signatureAlgorithm req.documentSOD.algorithm = SHA1withECDSA ∨
       signatureAlgorithm req.documentSOD.algorithm = SHA256withRSA ∨
       signatureAlgorithm req.documentSOD.algorithm = SHA256withECDSA) →
      hexDecode req.documentSOD.signedAttributes = some saB →
      hexDecode req.documentSOD.encapsulatedContent = some ecB →
      env.asn1ParseSet saB = some attrs →
      attrs ≠ [] →
      env.asn1ParseDigestAttr (attrs.getLastD []) = some da →
      da.digest ≠ [] →
      da.digest.headD [] ≠
        (if signatureAlgorithm req.documentSOD.algorithm = SHA1withECDSA
         then env.sha1 ecB else env.sha256 ecB) →
      CreateIdentity env cfg iss req db =
        { response := .internalError, db := db, issuerCalls := [],
          trace := [.algSelect, .hexSA, .hexEC, .validateSA] } := by
  intro env cfg iss req db saB ecB attrs da halg hsa hec hset hne hda hdne hmm
  have hlen0 : attrs.length ≠ 0 := fun h0 => hne (List.length_eq_zero.mp h0)
  have hdlen0 : da.digest.length ≠ 0 := fun h0 => hdne (List.length_eq_zero.mp h0)
  have hb1 : (attrs.length == 0) = false := by simp [hlen0]
  have hb2 : (da.digest.length == 0) = false := by simp [hdlen0]
  have hda' : env.asn1ParseDigestAttr (attrs.getLast?.getD []) = some da := by
    simpa using hda
  have hone : validateSignedAttributes env saB ecB (signatureAlgorithm req.documentSOD.algorithm)
      = .error "digest signed attribute is not equal to encapsulated content hash" := by
    rcases halg with h1 | h1 | h1
    · rw [h1] at hmm ⊢
      rw [if_pos rfl] at hmm
      have hmm' : ¬ da.digest.head?.getD [] = env.sha1 ecB := by simpa using hmm
      simp [validateSignedAttributes, hset, hda', hne, hdne, hmm',
        SHA1withECDSA, SHA256withRSA, SHA256withECDSA]
    · rw [h1] at hmm ⊢
      rw [if_neg (show ¬(SHA256withRSA = SHA1withECDSA) by decide)] at hmm
      have hmm' : ¬ da.digest.head?.getD [] = env.sha256 ecB := by simpa using hmm
      simp [validateSignedAttributes, hset, hda', hne, hdne, hmm',
        SHA1withECDSA, SHA256withRSA, SHA256withECDSA]
    · rw [h1] at hmm ⊢
      rw [if_neg (show ¬(SHA256withECDSA = SHA1withECDSA) by decide)] at hmm
      have hmm' : ¬ da.digest.head?.getD [] = env.sha256 ecB := by simpa using hmm
      simp [validateSignedAttributes, hset, hda', hne, hdne, hmm',
        SHA1withECDSA, SHA256withRSA, SHA256withECDSA]
  have hne' : ¬(signatureAlgorithm req.documentSOD.algorithm = "") := by
    rcases halg with h1 | h1 | h1 <;> rw [h1] <;> decide
  have hpre : preTx env cfg req = .error .saValidationFail := by
    simp [preTx, hne', hsa, hec, hone]
  simp [CreateIdentity, hpre, failResponse, traceOfFail]

/-- Witness for the amended C2 at a concrete digest-mismatch request. -/
theorem digest_mismatch_witness :
    CreateIdentity envMismatch cfgW issW reqW dbW
      = { response := .internalError, db := dbW, issuerCalls := [],
          trace := [.algSelect, .hexSA, .hexEC, .validateSA] } :=
  digest_mismatch_stops_pipeline envMismatch cfgW issW reqW dbW [] [] [[0]]
    { digest := [[9]] } (Or.inr (Or.inl (by decide))) (by decide) (by decide) (by decide)
    (by decide) (by decide) (by decide) (by decide)

/-- Counterexample to C2 as stated: at a concrete request satisfying the
digest-mismatch antecedent the handler renders internal_error, whose
HTTP status is 500 and not the claimed 400. -/
theorem digest_mismatch_renders_500_cex :
    envMismatch.asn1ParseSet [] = some [[0]] ∧
    envMismatch.asn1ParseDigestAttr [0] = some { digest := [[9]] } ∧
    ([9] : List Nat) ≠ envMismatch.sha256 [] ∧
    (CreateIdentity envMismatch cfgW issW reqW dbW)
      = { response := .internalError, db := dbW, issuerCalls := [],
          trace := [.algSelect, .hexSA, .hexEC, .validateSA] } ∧
    httpStatus (CreateIdentity envMismatch cfgW issW reqW dbW).response = some 500 ∧
    httpStatus (CreateIdentity envMismatch cfgW issW reqW dbW).response ≠ some 400 := by
  decide

/-- Claim C8: any algorithm string containing PSS in any letter case is
normalized to the empty tag; any string matching none of the three
supported tags is likewise normalized to the empty tag; and an empty
tag makes the handler answer bad_request immediately, before any
cryptographic stage, with no database or issuer effect. -/
theorem pss_and_unknown_algorithms_rejected :
    (∀ s : String, hasSubL "PSS".data (toUpperL s.data) = true → signatureAlgorithm s = "") ∧
    (∀ s : String, signatureAlgorithm s ≠ SHA1withECDSA →
      signatureAlgorithm s ≠ SHA256withRSA → signatureAlgorithm s ≠ SHA256withECDSA →
      signatureAlgorithm s = "") ∧
    (∀ (env : Env) (cfg : VerifierConfig) (iss : IssuerEnv) (req : RequestData)
       (db : List Claim),
      signatureAlgorithm req.documentSOD.algorithm = "" →
      CreateIdentity env cfg iss req db =
        { response := .badRequest, db := db, issuerCalls := [], trace := [.algSelect] }) := by
  refine ⟨?_, ?_, ?_⟩
  · intro s hpss
    simp only [signatureAlgorithm]
    rw [if_pos hpss]
  · intro s h1 h2 h3
    rcases signatureAlgorithm_cases s with h | h | h | h
    · exact h
    · exact absurd h h1
    · exact absurd h h2
    · exact absurd h h3
  · intro env cfg iss req db h
    have hpre : preTx env cfg req = .error .algInvalid := by
      simp [preTx, h]
    simp [CreateIdentity, hpre, failResponse, traceOfFail]

/-- Witness for C8: the PSS seed input is normalized to the empty tag
and the handler rejects it with bad_request and no effects. -/
theorem pss_rejected_witness :
    signatureAlgorithm "rsassa-pss" = "" ∧
    CreateIdentity envW cfgW issW reqPSS dbW =
      { response := .badRequest, db := dbW, issuerCalls := [], trace := [.algSelect] } :=
  ⟨pss_and_unknown_algorithms_rejected.1 "rsassa-pss" (by decide),
   pss_and_unknown_algorithms_rejected.2.2 envW cfgW issW reqPSS dbW (by decide)⟩

/-- Claim C9: the pub-signal processing stages index positions 0 through
9 unconditionally, so with fewer than ten public signals they cannot
succeed (validatePubSignals never returns ok below ten signals, the
expiration extraction never returns ok below nine), and the
out-of-bounds panic branch is reachable at the public interface: a
nine-signal request that passes every earlier check panics. -/
theorem pub_signals_require_ten :
    (∀ (cfg : VerifierConfig) (now : GoDate) (dg1 : List Nat) (sig : List String),
      sig.length < 10 → validatePubSignals cfg now dg1 sig ≠ .ok ()) ∧
    (∀ sig : List String, sig.length < 9 →
      ∀ t, getExpirationTimeFromPubSignals sig ≠ .ok t) ∧
    (CreateIdentity envW cfgW issW reqShortSig []).response = .panicked := by
  refine ⟨?_, ?_, by decide⟩
  · intro cfg now dg1 sig hlen hok
    simp only [validatePubSignals] at hok
    cases h1 : validatePubSignalsDG1Hash dg1 sig with
    | error e => simp [h1] at hok
    | ok u =>
      cases u
      simp only [h1] at hok
      cases h2 : validatePubSignalsCurrentDate now sig with
      | error e => simp [h2] at hok
      | ok u =>
        cases u
        simp only [h2] at hok
        have h9 : goIndex sig 9 = none := goIndex_none sig 9 (by omega)
        simp [h9] at hok
  · intro sig hlen t hok
    simp only [getExpirationTimeFromPubSignals] at hok
    cases h6 : goIndex sig 6 with
    | none => simp [h6] at hok
    | some s6 =>
      simp only [h6] at hok
      cases ha6 : atoi s6 with
      | none => simp [ha6] at hok
      | some y =>
        simp only [ha6] at hok
        cases h7 : goIndex sig 7 with
        | none => simp [h7] at hok
        | some s7 =>
          simp only [h7] at hok
          cases ha7 : atoi s7 with
          | none => simp [ha7] at hok
          | some mo =>
            simp only [ha7] at hok
            have h8 : goIndex sig 8 = none := goIndex_none sig 8 (by omega)
            simp [h8] at hok

/-- Witness for C9: the nine-signal list is short and its validation
cannot succeed. -/
theorem pub_signals_require_ten_witness :
    reqShortSig.zkProof.pubSignals.length < 10 ∧
    validatePubSignals cfgW envW.now [1, 1] reqShortSig.zkProof.pubSignals ≠ .ok () :=
  ⟨by decide,
   pub_signals_require_ten.1 cfgW envW.now [1, 1] reqShortSig.zkProof.pubSignals (by decide)⟩

/-- Claim C10: the DG1 binding check accepts exactly when both signals
parse (decimal, or hex after a 0x prefix) and DG1 equals the
concatenation of the minimal big-endian byte encodings of the parsed
values; consequently a DG1 whose first or second limb carries leading
zero bytes is rejected even when the signals encode the limb values
exactly, because the minimal encodings are strictly shorter. -/
theorem dg1_binding_characterization :
    (∀ (dg1 : List Nat) (s0 s1 : String) (rest : List String),
      validatePubSignalsDG1Hash dg1 (s0 :: s1 :: rest) = .ok () ↔
        ∃ a b : Int, stringToBigInt s0 = some a ∧ stringToBigInt s1 = some b ∧
          dg1 = intBytes a ++ intBytes b) ∧
    (∀ (x y : List Nat) (s0 s1 : String) (rest : List String),
      (∀ v ∈ x, v < 256) → (∀ v ∈ y, v < 256) →
      (x.headD 1 = 0 ∨ y.headD 1 = 0) →
      stringToBigInt s0 = some (bytesToNat x : Int) →
      stringToBigInt s1 = some (bytesToNat y : Int) →
      validatePubSignalsDG1Hash (x ++ y) (s0 :: s1 :: rest) ≠ .ok ()) := by
  refine ⟨fun dg1 s0 s1 rest => dg1Hash_ok_iff dg1 s0 s1 rest, ?_⟩
  intro x y s0 s1 rest hxb hyb hlead hs0 hs1 hok
  obtain ⟨a, b, ha, hb, hdg⟩ := (dg1Hash_ok_iff (x ++ y) s0 s1 rest).mp hok
  have hax : a = ((bytesToNat x : Nat) : Int) := Option.some.inj (ha.symm.trans hs0)
  have hby : b = ((bytesToNat y : Nat) : Int) := Option.some.inj (hb.symm.trans hs1)
  subst hax hby
  have hlx : (intBytes ((bytesToNat x : Nat) : Int)).length ≤ x.length := by
    rw [intBytes_ofNat]
    exact natBytes_length_le x.length _ (bytesToNat_lt x hxb)
  have hly : (intBytes ((bytesToNat y : Nat) : Int)).length ≤ y.length := by
    rw [intBytes_ofNat]
    exact natBytes_length_le y.length _ (bytesToNat_lt y hyb)
  have hlen := congrArg List.length hdg
  simp only [List.length_append] at hlen
  rcases hlead with h0 | h0
  · cases x with
    | nil => simp at h0
    | cons v t =>
      have hv : v = 0 := by simpa using h0
      subst hv
      have hbx : bytesToNat (0 :: t) = bytesToNat t := by simp [bytesToNat]
      have hlt : (intBytes ((bytesToNat (0 :: t) : Nat) : Int)).length ≤ t.length := by
        rw [intBytes_ofNat, hbx]
        exact natBytes_length_le t.length _
          (bytesToNat_lt t (fun v hv => hxb v (by simp [hv])))
      simp only [List.length_cons] at hlen
      omega
  · cases y with
    | nil => simp at h0
    | cons v t =>
      have hv : v = 0 := by simpa using h0
      subst hv
      have hbx : bytesToNat (0 :: t) = bytesToNat t := by simp [bytesToNat]
      have hlt : (intBytes ((bytesToNat (0 :: t) : Nat) : Int)).length ≤ t.length := by
        rw [intBytes_ofNat, hbx]
        exact natBytes_length_le t.length _
          (bytesToNat_lt t (fun v hv => hyb v (by simp [hv])))
      simp only [List.length_cons] at hlen
      omega

/-- Witness for C10: DG1 = [0, 1, 2] split as limbs [0, 1] and [2]; the
first limb has a leading zero byte, both signals encode the limb values
exactly, and the check rejects. -/
theorem dg1_binding_witness :
    ([0, 1] : List Nat).headD 1 = 0 ∧
    stringToBigInt "1" = some ((bytesToNat [0, 1] : Nat) : Int) ∧
    stringToBigInt "2" = some ((bytesToNat [2] : Nat) : Int) ∧
    validatePubSignalsDG1Hash ([0, 1] ++ [2]) ["1", "2"] ≠ .ok () :=
  ⟨by decide, by decide, by decide,
   dg1_binding_characterization.2 [0, 1] [2] "1" "2" []
     (by decide) (by decide) (Or.inl (by decide)) (by decide) (by decide)⟩
